import Mathlib

/-!
A shallow embedding of the krd enclave client (src/krd/enclave_client.go).

The embedding models the client's state, the LRU request-correlator
(github.com/golang/groupcache/lru, vendored collaborator), and the
request/response engine.  The external `kr` package (PairingSecret service,
cloud relay queue, JSON marshalling) is not part of src/, so its operations
are modelled from the spec's collaborator contracts (spec section 6) as an
oracle structure `Collab` passed to every function.  Concurrency is
linearised: the send-and-drain worker of a request runs to completion before
the caller's timer is inspected, and a value sitting in the response channel
wins the race against the timer; an empty channel at worker exit yields the
timeout branch.  Bytes are `List Nat`; opaque identifiers are `Nat`.
-/

namespace Krd

abbrev Msg := List Nat
abbrev Ctxt := List Nat

/-- Modelled from the spec: the PairingSecret of the external kr package —
symmetric key material (absent while key-pending) and the cloud endpoint
identifier (SNS endpoint ARN).  Spec section 3. -/
structure PairingSecret where
  keyMaterial : Option Nat
  snsEndpointARN : Option Nat
deriving DecidableEq

/-- Modelled from the spec: an error value of the external kr package.
`errWaitingForKey` is the distinguished kr.ErrWaitingForKey sentinel. -/
inductive KErr where
  | errWaitingForKey
  | generic (code : Nat)
deriving DecidableEq

/-- The error taxonomy of src/krd/enclave_client.go: the wrapper types
SendQueued, SendError, RecvError, ProtoError, the ErrTimeout value, the
"EnclaveClient pairing never initiated" error, and `plain` for kr errors
returned unwrapped (as the decrypt and unmarshal paths do). -/
inductive ClientErr where
  | sendQueued (e : KErr)
  | sendError (e : KErr)
  | recvError (e : KErr)
  | protoError (e : KErr)
  | timeout
  | pairingNeverInitiated
  | plain (e : KErr)
deriving DecidableEq

/-- Modelled from the spec: an opaque user profile (kr.Profile). -/
structure Profile where
  val : Nat
deriving DecidableEq

/-- Modelled from the spec: kr.MeResponse, carrying the profile. -/
structure MeResponse where
  me : Profile
deriving DecidableEq

/-- Modelled from the spec: kr.SignResponse (opaque payload). -/
structure SignResponse where
  signature : Nat
deriving DecidableEq

/-- Modelled from the spec: kr.ListResponse (opaque payload). -/
structure ListResponse where
  profiles : List Profile
deriving DecidableEq

/-- Modelled from the spec: kr.Response — a request identifier, an optional
endpoint-identifier update, and at most one populated payload variant. -/
structure Response where
  requestID : Nat
  snsEndpointARN : Option Nat
  meResponse : Option MeResponse
  signResponse : Option SignResponse
  listResponse : Option ListResponse
deriving DecidableEq

/-- Modelled from the spec: kr.SignRequest (opaque payload). -/
structure SignRequest where
  data : Msg
deriving DecidableEq

/-- Modelled from the spec: kr.ListRequest (opaque payload). -/
structure ListRequest where
  emailFilter : Nat
deriving DecidableEq

/-- Modelled from the spec: kr.Request — a fresh identifier and at most one
populated operation variant. -/
structure Request where
  requestID : Nat
  meRequest : Option Unit
  signRequest : Option SignRequest
  listRequest : Option ListRequest
deriving DecidableEq

/-- The vendored groupcache lru.Cache, specialised to request identifiers
mapped to response-channel identifiers.  `entries` is most-recent first. -/
structure LRUCache where
  maxEntries : Nat
  entries : List (Nat × Nat)
deriving DecidableEq

def LRUCache.containsKey (c : LRUCache) (k : Nat) : Bool :=
  c.entries.any (fun e => e.1 == k)

/-- lru.Cache.Get: on a hit, move the entry to the front and return its
value; on a miss, leave the cache unchanged. -/
def LRUCache.get (c : LRUCache) (k : Nat) : Option Nat × LRUCache :=
  match c.entries.find? (fun e => e.1 == k) with
  | some e => (some e.2, { c with entries := e :: c.entries.filter (fun x => x.1 != k) })
  | none => (none, c)

/-- lru.Cache.Add: update-and-move-to-front on an existing key, otherwise
push front and evict the oldest entry when over capacity. -/
def LRUCache.add (c : LRUCache) (k v : Nat) : LRUCache :=
  if c.entries.any (fun e => e.1 == k) then
    { c with entries := (k, v) :: c.entries.filter (fun e => e.1 != k) }
  else
    let es := (k, v) :: c.entries
    { c with entries := if c.maxEntries != 0 && c.maxEntries < es.length then es.dropLast else es }

/-- lru.Cache.Remove. -/
def LRUCache.remove (c : LRUCache) (k : Nat) : LRUCache :=
  { c with entries := c.entries.filter (fun e => e.1 != k) }

/-- Well-formedness maintained by the map-backed Go cache: keys are unique. -/
def LRUCache.wf (c : LRUCache) : Prop :=
  (c.entries.map Prod.fst).Nodup

/-- Observable events of a run: the persisted secret (kr.SavePairing /
kr.DeletePairing), the messages submitted to the cloud relay
(PairingSecret.SendMessage), the ciphertexts written to bluetooth, every
entry into sendMessage (send attempts), the values delivered on response
channels (`none` is the sentinel "no answer"), the number of relay-queue
drains (PairingSecret.ReadQueue calls), and whether the nil bluetooth
interface was ever dereferenced. -/
structure World where
  saved : Option PairingSecret
  cloudSent : List Msg
  btWritten : List Ctxt
  sendAttempts : List Msg
  delivered : List (Nat × Option Response)
  readQueueCalls : Nat
  nilBtDeref : Bool
deriving DecidableEq

/-- The EnclaveClient struct of src/krd/enclave_client.go.  The bluetooth
driver is opaque: only its presence matters (`bt = none` models the nil
interface left behind when bluetooth initialization fails in Start). -/
structure ClientState where
  pairingSecret : Option PairingSecret
  requestCallbacksByRequestID : LRUCache
  outgoingQueue : List Msg
  snsEndpointARN : Option Nat
  cachedMe : Option Profile
  bt : Option Unit
deriving DecidableEq

/-- Modelled from the spec: the result of PairingSecret.UnwrapKeyIfPresent —
the remaining ordinary ciphertext (if any), whether key material was
unwrapped, an error, and the in-place updated secret (the Go method mutates
its receiver). -/
structure UnwrapOut where
  remainder : Option Ctxt
  didUnwrapKey : Bool
  err : Option KErr
  updatedSecret : PairingSecret
deriving DecidableEq

/-- Modelled from the spec: the outcome of PairingSecret.EncryptMessage. -/
inductive EncOut where
  | ok (ciphertext : Ctxt)
  | waitingForKey
  | failed (e : KErr)
deriving DecidableEq

/-- Modelled from the spec: the behaviours of all external collaborators
(spec section 6).  `readQueue` is indexed by the drain iteration to let
successive reads of the relay queue differ; `deadlinePassed i` abstracts the
wall-clock test `time.Now().After(timeoutAt)` at iteration `i`;
`generateSecret` is kr.GeneratePairingSecretAndCreateQueues. -/
structure Collab where
  unwrap : PairingSecret → Ctxt → UnwrapOut
  decrypt : PairingSecret → Ctxt → Except KErr (Option Msg)
  encrypt : PairingSecret → Msg → EncOut
  cloudSend : PairingSecret → Msg → Option KErr
  readQueue : Nat → Except KErr (List Ctxt)
  marshal : Request → Except KErr Msg
  unmarshal : Msg → Except KErr Response
  deadlinePassed : Nat → Bool
  generateSecret : Except KErr PairingSecret

/-- EnclaveClient.sendMessage.  With no active secret it fails with the
unpaired error.  On ErrWaitingForKey the raw message is appended to the
outgoing queue only below capacity 128 and a SendQueued error is returned.
On encryption success the ciphertext is written to bluetooth in a goroutine
— the source performs `client.bt.Write(ciphertext)` without a nil check, so
with `bt = none` the nil interface is dereferenced (recorded in the world;
in Go this panics the process) — and the message is submitted to the cloud
relay, whose failure is surfaced as a SendError. -/
def sendMessage (C : Collab) (st : ClientState) (w : World) (message : Msg) :
    ClientState × World × Option ClientErr :=
  let w := { w with sendAttempts := w.sendAttempts ++ [message] }
  match st.pairingSecret with
  | none => (st, w, some ClientErr.pairingNeverInitiated)
  | some ps =>
    match C.encrypt ps message with
    | EncOut.waitingForKey =>
      let st :=
        if st.outgoingQueue.length < 128 then
          { st with outgoingQueue := st.outgoingQueue ++ [message] }
        else st
      (st, w, some (ClientErr.sendQueued KErr.errWaitingForKey))
    | EncOut.failed e => (st, w, some (ClientErr.sendError e))
    | EncOut.ok ciphertext =>
      let w :=
        match st.bt with
        | some _ => { w with btWritten := w.btWritten ++ [ciphertext] }
        | none => { w with nilBtDeref := true }
      let w := { w with cloudSent := w.cloudSent ++ [message] }
      match C.cloudSend ps message with
      | some e => (st, w, some (ClientErr.sendError e))
      | none => (st, w, none)

/-- EnclaveClient.handleMessage.  Unmarshal the response (a failure is
returned unwrapped); apply an endpoint-identifier update to the active
secret and persist it, independent of correlation; then deliver to the
registered channel if one exists (a miss is a logged no-op) and remove the
correlator entry. -/
def handleMessage (C : Collab) (st : ClientState) (w : World) (message : Msg) :
    ClientState × World × Option ClientErr :=
  match C.unmarshal message with
  | Except.error e => (st, w, some (ClientErr.plain e))
  | Except.ok response =>
    let stw :=
      match response.snsEndpointARN with
      | some arn =>
        match st.pairingSecret with
        | some ps =>
          let ps := { ps with snsEndpointARN := some arn }
          ({ st with pairingSecret := some ps }, { w with saved := some ps })
        | none => (st, w)
      | none => (st, w)
    let st := stw.1
    let w := stw.2
    let gc := st.requestCallbacksByRequestID.get response.requestID
    let w :=
      match gc.1 with
      | some ch => { w with delivered := w.delivered ++ [(ch, some response)] }
      | none => w
    let st := { st with requestCallbacksByRequestID := gc.2.remove response.requestID }
    (st, w, none)

/-- Outcome of handleCiphertext: `crashed` models the nil-pointer panic of
invoking UnwrapKeyIfPresent on an absent secret. -/
inductive HCOut where
  | crashed
  | ok (err : Option ClientErr)
deriving DecidableEq

/-- EnclaveClient.handleCiphertext.  The source calls
`pairingSecret.UnwrapKeyIfPresent(ciphertext)` and only afterwards tests
`pairingSecret == nil`; UnwrapKeyIfPresent (modelled from the spec as an
operation of the PairingSecret service) dereferences its receiver, so with
no active secret the call crashes before the nil test can return the
unpaired error.  On a key unwrap: persist the updated secret, swap the
outgoing queue for an empty one, and re-send every buffered message through
sendMessage (each failure only logged; the carried error is the last
send's result, as in the Go named-return).  Then decrypt any remaining
payload (failure returned unwrapped after logging) and hand it to
handleMessage. -/
def handleCiphertext (C : Collab) (st : ClientState) (w : World) (ciphertext : Ctxt) :
    ClientState × World × HCOut :=
  match st.pairingSecret with
  | none => (st, w, HCOut.crashed)
  | some ps0 =>
    let u := C.unwrap ps0 ciphertext
    let st := { st with pairingSecret := some u.updatedSecret }
    match u.err with
    | some e => (st, w, HCOut.ok (some (ClientErr.protoError e)))
    | none =>
      let swe :=
        if u.didUnwrapKey then
          let queue := st.outgoingQueue
          let st := { st with outgoingQueue := [] }
          let w := { w with saved := some u.updatedSecret }
          queue.foldl
            (fun acc m =>
              let r := sendMessage C acc.1 acc.2.1 m
              (r.1, r.2.1, r.2.2))
            (st, w, (none : Option ClientErr))
        else (st, w, (none : Option ClientErr))
      let st := swe.1
      let w := swe.2.1
      let carried := swe.2.2
      match u.remainder with
      | none => (st, w, HCOut.ok carried)
      | some rem =>
        match C.decrypt u.updatedSecret rem with
        | Except.error e => (st, w, HCOut.ok (some (ClientErr.plain e)))
        | Except.ok none => (st, w, HCOut.ok none)
        | Except.ok (some m) =>
          let r := handleMessage C st w m
          (r.1, r.2.1, HCOut.ok r.2.2)

/-- The `receive` closure of sendRequestAndReceiveResponses: one drain of
the relay queue.  A read failure is a RecvError.  Each ciphertext goes
through handleCiphertext; a result equal to the bare kr.ErrWaitingForKey is
ignored (the previous error value is kept), any other result — including
nil — overwrites the pass's error, so the pass reports the last
non-waiting result.  (The Go `numReceived` named return is never assigned
and is always 0.) -/
def receivePass (C : Collab) (st : ClientState) (w : World) (i : Nat) :
    ClientState × World × HCOut :=
  let w := { w with readQueueCalls := w.readQueueCalls + 1 }
  match C.readQueue i with
  | Except.error e => (st, w, HCOut.ok (some (ClientErr.recvError e)))
  | Except.ok ciphertexts =>
    ciphertexts.foldl
      (fun acc c =>
        match acc with
        | (st, w, HCOut.crashed) => (st, w, HCOut.crashed)
        | (st, w, HCOut.ok prev) =>
          match handleCiphertext C st w c with
          | (st, w, HCOut.crashed) => (st, w, HCOut.crashed)
          | (st, w, HCOut.ok e) =>
            match e with
            | some (ClientErr.plain KErr.errWaitingForKey) => (st, w, HCOut.ok prev)
            | _ => (st, w, HCOut.ok e))
      (st, w, HCOut.ok none)

inductive LoopOut where
  | crashed
  | fuelOut
  | exited
deriving DecidableEq

/-- The drain loop of sendRequestAndReceiveResponses: repeat receive passes,
each followed by a correlator Get (with its move-to-front side effect);
break when the pass returned an error, or the deadline has passed (the
received count is always 0), or this request's entry is gone.  `fuel` bounds
the iterations for totality; theorems pick schedules that exit within it. -/
def drainLoop (C : Collab) (requestID : Nat) :
    ClientState → World → Nat → Nat → ClientState × World × LoopOut
  | st, w, _, 0 => (st, w, LoopOut.fuelOut)
  | st, w, i, fuel + 1 =>
    match receivePass C st w i with
    | (st', w', HCOut.crashed) => (st', w', LoopOut.crashed)
    | (st', w', HCOut.ok errOpt) =>
      let gc := st'.requestCallbacksByRequestID.get requestID
      let st' := { st' with requestCallbacksByRequestID := gc.2 }
      if errOpt.isSome || C.deadlinePassed i || !gc.1.isSome then
        (st', w', LoopOut.exited)
      else
        drainLoop C requestID st' w' (i + 1) fuel

inductive WOut where
  | crashed
  | fuelOut
  | done (err : Option ClientErr)
deriving DecidableEq

/-- The tail of the worker after a successful (or queued) send: run the
drain loop, then — if this request's correlator entry still exists — give
up on it: deliver the sentinel `none` on its channel and remove the entry.
The worker's named error return is nil here (the loop's receive error is
shadowed and only logged). -/
def drainAndEvict (C : Collab) (st : ClientState) (w : World) (request : Request)
    (fuel : Nat) : ClientState × World × WOut :=
  match drainLoop C request.requestID st w 0 fuel with
  | (st', w', LoopOut.crashed) => (st', w', WOut.crashed)
  | (st', w', LoopOut.fuelOut) => (st', w', WOut.fuelOut)
  | (st', w', LoopOut.exited) =>
    let gc := st'.requestCallbacksByRequestID.get request.requestID
    let st' := { st' with requestCallbacksByRequestID := gc.2 }
    match gc.1 with
    | some ch =>
      let w' := { w' with delivered := w'.delivered ++ [(ch, none)] }
      let st' := { st' with
        requestCallbacksByRequestID := st'.requestCallbacksByRequestID.remove request.requestID }
      (st', w', WOut.done none)
    | none => (st', w', WOut.done none)

/-- EnclaveClient.sendRequestAndReceiveResponses.  With no active secret it
returns the unpaired error immediately — before registering the channel,
before any send or queue read.  Otherwise: marshal (failure is a
ProtoError), register the response channel under the request identifier,
send; a SendQueued outcome is logged and cleared, any other send error is
returned without draining and without evicting the entry; then drain. -/
def sendRequestAndReceiveResponses (C : Collab) (st : ClientState) (w : World)
    (request : Request) (cb : Nat) (fuel : Nat) : ClientState × World × WOut :=
  match st.pairingSecret with
  | none => (st, w, WOut.done (some ClientErr.pairingNeverInitiated))
  | some _ =>
    match C.marshal request with
    | Except.error e => (st, w, WOut.done (some (ClientErr.protoError e)))
    | Except.ok requestJson =>
      let st := { st with
        requestCallbacksByRequestID := st.requestCallbacksByRequestID.add request.requestID cb }
      match sendMessage C st w requestJson with
      | (st', w', sendErr) =>
        match sendErr with
        | some (ClientErr.sendQueued _) => drainAndEvict C st' w' request fuel
        | some e => (st', w', WOut.done (some e))
        | none => drainAndEvict C st' w' request fuel

inductive TOut where
  | crashed
  | fuelOut
  | done (response : Option Response) (err : Option ClientErr)
deriving DecidableEq

/-- EnclaveClient.tryRequest.  The worker's returned error is only logged.
The caller then races its timer against the response channel: if the worker
delivered anything on this request's channel, the first such value is the
response (possibly the `none` sentinel) with a nil error; if the channel
stayed empty, the timer fires and ErrTimeout is returned. -/
def tryRequest (C : Collab) (st : ClientState) (w : World) (request : Request) (cb : Nat)
    (fuel : Nat) : ClientState × World × TOut :=
  let base := w.delivered.length
  match sendRequestAndReceiveResponses C st w request cb fuel with
  | (st', w', WOut.crashed) => (st', w', TOut.crashed)
  | (st', w', WOut.fuelOut) => (st', w', TOut.fuelOut)
  | (st', w', WOut.done _) =>
    match ((w'.delivered.drop base).filter (fun d => d.1 == cb)).head? with
    | some d => (st', w', TOut.done d.2 none)
    | none => (st', w', TOut.done none (some ClientErr.timeout))

inductive ROut (α : Type) where
  | crashed
  | fuelOut
  | done (payload : Option α) (err : Option ClientErr)
deriving DecidableEq

/-- EnclaveClient.RequestMe (20 second budget, abstracted into
`deadlinePassed`).  A tryRequest error is returned with a nil payload; a
non-nil response's MeResponse payload, when present, also updates the
cached profile; a nil response or absent payload yields a nil payload with
a nil error. -/
def RequestMe (C : Collab) (st : ClientState) (w : World) (requestId cb fuel : Nat) :
    ClientState × World × ROut MeResponse :=
  let request : Request :=
    { requestID := requestId, meRequest := some (), signRequest := none, listRequest := none }
  match tryRequest C st w request cb fuel with
  | (st', w', TOut.crashed) => (st', w', ROut.crashed)
  | (st', w', TOut.fuelOut) => (st', w', ROut.fuelOut)
  | (st', w', TOut.done response err) =>
    match err with
    | some e => (st', w', ROut.done none (some e))
    | none =>
      match response with
      | none => (st', w', ROut.done none none)
      | some r =>
        match r.meResponse with
        | none => (st', w', ROut.done none none)
        | some mr => ({ st' with cachedMe := some mr.me }, w', ROut.done (some mr) none)

/-- EnclaveClient.RequestSignature (15 second budget). -/
def RequestSignature (C : Collab) (st : ClientState) (w : World) (signRequest : SignRequest)
    (requestId cb fuel : Nat) : ClientState × World × ROut SignResponse :=
  let request : Request :=
    { requestID := requestId, meRequest := none, signRequest := some signRequest,
      listRequest := none }
  match tryRequest C st w request cb fuel with
  | (st', w', TOut.crashed) => (st', w', ROut.crashed)
  | (st', w', TOut.fuelOut) => (st', w', ROut.fuelOut)
  | (st', w', TOut.done response err) =>
    match err with
    | some e => (st', w', ROut.done none (some e))
    | none =>
      match response with
      | none => (st', w', ROut.done none none)
      | some r => (st', w', ROut.done r.signResponse none)

/-- EnclaveClient.RequestList (5 second budget). -/
def RequestList (C : Collab) (st : ClientState) (w : World) (listRequest : ListRequest)
    (requestId cb fuel : Nat) : ClientState × World × ROut ListResponse :=
  let request : Request :=
    { requestID := requestId, meRequest := none, signRequest := none,
      listRequest := some listRequest }
  match tryRequest C st w request cb fuel with
  | (st', w', TOut.crashed) => (st', w', ROut.crashed)
  | (st', w', TOut.fuelOut) => (st', w', ROut.fuelOut)
  | (st', w', TOut.done response err) =>
    match err with
    | some e => (st', w', ROut.done none (some e))
    | none =>
      match response with
      | none => (st', w', ROut.done none none)
      | some r => (st', w', ROut.done r.listResponse none)

/-- EnclaveClient.generatePairing.  deactivatePairing touches only the
bluetooth driver (modelled as a no-op on the client state); the stored
pairing is deleted; generation failure is logged and returned with the
in-memory secret untouched; on success the new secret replaces the old one,
the queue is reset, and the secret is persisted. -/
def generatePairing (C : Collab) (st : ClientState) (w : World) :
    ClientState × World × Option KErr :=
  let w := { w with saved := none }
  match C.generateSecret with
  | Except.error e => (st, w, some e)
  | Except.ok ps =>
    ({ st with pairingSecret := some ps, outgoingQueue := [] },
      { w with saved := some ps }, none)

inductive PairOut where
  | crashed
  | done (pairing : PairingSecret)
deriving DecidableEq

/-- EnclaveClient.Pair.  Invalidates the cached profile, rotates the secret
(deactivate/activate touch only the bluetooth driver; generatePairing's
error is discarded by the source), then builds the return value by
dereferencing `ec.pairingSecret` unconditionally — a nil-pointer crash when
generation failed on a never-paired client. -/
def Pair (C : Collab) (st : ClientState) (w : World) : ClientState × World × PairOut :=
  let st := { st with cachedMe := none }
  let gp := generatePairing C st w
  match gp.1.pairingSecret with
  | some ps => (gp.1, gp.2.1, PairOut.done ps)
  | none => (gp.1, gp.2.1, PairOut.crashed)

/-! ### Concrete fixtures for witnesses and counterexamples -/

/-- A secret whose key material is established. -/
def psEst : PairingSecret := { keyMaterial := some 1, snsEndpointARN := none }

/-- A secret still waiting for the key exchange. -/
def psPending : PairingSecret := { keyMaterial := none, snsEndpointARN := none }

def emptyCache : LRUCache := { maxEntries := 128, entries := [] }

def w0 : World :=
  { saved := none, cloudSent := [], btWritten := [], sendAttempts := [], delivered := [],
    readQueueCalls := 0, nilBtDeref := false }

/-- A client that was never paired. -/
def stUnpaired : ClientState :=
  { pairingSecret := none, requestCallbacksByRequestID := emptyCache, outgoingQueue := [],
    snsEndpointARN := none, cachedMe := none, bt := some () }

/-- A paired client with an established key and a working bluetooth driver. -/
def stEst : ClientState := { stUnpaired with pairingSecret := some psEst }

/-- A paired client whose bluetooth initialization failed (nil interface). -/
def stNoBt : ClientState := { stUnpaired with pairingSecret := some psEst, bt := none }

/-- Oracle for concrete runs: pass-through encryption, relay reads fail. -/
def collabRecvFail : Collab :=
  { unwrap := fun ps c =>
      { remainder := some c, didUnwrapKey := false, err := none, updatedSecret := ps }
    decrypt := fun _ c => Except.ok (some c)
    encrypt := fun _ m => EncOut.ok m
    cloudSend := fun _ _ => none
    readQueue := fun _ => Except.error (KErr.generic 3)
    marshal := fun r => Except.ok [r.requestID]
    unmarshal := fun _ => Except.error (KErr.generic 1)
    deadlinePassed := fun _ => false
    generateSecret := Except.ok psEst }

/-- Oracle whose encryption always reports kr.ErrWaitingForKey. -/
def collabWaiting : Collab := { collabRecvFail with encrypt := fun _ _ => EncOut.waitingForKey }

/-- Oracle whose secret generation fails. -/
def collabGenFail : Collab :=
  { collabRecvFail with generateSecret := Except.error (KErr.generic 2) }

/-- Oracle whose unmarshalling yields a response carrying an
endpoint-identifier update and no payload. -/
def collabArn : Collab :=
  { collabRecvFail with
    unmarshal := fun m => Except.ok
      { requestID := m.headD 0, snsEndpointARN := some 9, meResponse := none,
        signResponse := none, listResponse := none } }

/-! ### LRU cache lemmas -/

theorem LRUCache.get_front (M : Nat) (k v : Nat) (es : List (Nat × Nat)) :
    LRUCache.get { maxEntries := M, entries := (k, v) :: es } k =
      (some v, { maxEntries := M, entries := (k, v) :: es.filter (fun x => x.1 != k) }) := by
  have h1 : ((k, v) :: es).find? (fun e => e.1 == k) = some (k, v) :=
    List.find?_cons_of_pos _ (by simp)
  simp [LRUCache.get, h1, List.filter_cons]

theorem LRUCache.add_front (c : LRUCache) (k v : Nat) :
    ∃ es, (c.add k v).entries = (k, v) :: es := by
  unfold LRUCache.add
  by_cases h : c.entries.any (fun e => e.1 == k)
  · exact ⟨c.entries.filter (fun e => e.1 != k), by simp [h]⟩
  · simp only [h, Bool.false_eq_true, if_false]
    split
    · rename_i hg
      match hc : c.entries with
      | [] =>
        rw [hc] at hg
        simp only [List.length_cons, List.length_nil, Bool.and_eq_true, bne_iff_ne, ne_eq,
          decide_eq_true_eq] at hg
        exfalso
        omega
      | a :: t =>
        exact ⟨(a :: t).dropLast, rfl⟩
    · exact ⟨c.entries, rfl⟩

theorem LRUCache.get_miss (c : LRUCache) (k : Nat) (h : c.containsKey k = false) :
    c.get k = (none, c) := by
  have hf : c.entries.find? (fun e => e.1 == k) = none := by
    apply List.find?_eq_none.mpr
    intro x hx
    have := (List.any_eq_false.mp h) x hx
    simpa using this
  simp [LRUCache.get, hf]

theorem LRUCache.remove_miss (c : LRUCache) (k : Nat) (h : c.containsKey k = false) :
    c.remove k = c := by
  have hall : ∀ x ∈ c.entries, (x.1 != k) = true := by
    intro x hx
    have := (List.any_eq_false.mp h) x hx
    simpa [bne] using this
  simp [LRUCache.remove, List.filter_eq_self.mpr hall]

theorem LRUCache.containsKey_remove (c : LRUCache) (k : Nat) :
    (c.remove k).containsKey k = false := by
  rw [LRUCache.remove, LRUCache.containsKey]
  apply List.any_eq_false.mpr
  intro x hx
  have hmem := List.mem_filter.mp hx
  simpa [bne] using hmem.2

theorem LRUCache.wf_remove (c : LRUCache) (k : Nat) (h : c.wf) : (c.remove k).wf := by
  unfold LRUCache.wf LRUCache.remove at *
  exact List.Nodup.sublist ((c.entries.filter_sublist).map Prod.fst) h

theorem LRUCache.wf_get (c : LRUCache) (k : Nat) (h : c.wf) : ((c.get k).2).wf := by
  unfold LRUCache.get
  rcases hf : c.entries.find? (fun e => e.1 == k) with _ | e
  · simp only [hf]
    exact h
  · simp only [hf]
    have hek : (e.1 == k) = true := by
      have := List.find?_some hf
      simpa using this
    have hkeq : e.1 = k := by simpa using hek
    show ((e :: c.entries.filter (fun x => x.1 != k)).map Prod.fst).Nodup
    rw [List.map_cons]
    refine List.nodup_cons.mpr ⟨?_, ?_⟩
    · intro hmem
      rcases List.mem_map.mp hmem with ⟨x, hx, hfx⟩
      have hne := (List.mem_filter.mp hx).2
      rw [hfx] at hne
      simp [bne, hkeq] at hne
    · exact List.Nodup.sublist ((c.entries.filter_sublist).map Prod.fst) h

theorem LRUCache.wf_add (c : LRUCache) (k v : Nat) (h : c.wf) : (c.add k v).wf := by
  unfold LRUCache.wf LRUCache.add at *
  by_cases hc : c.entries.any (fun e => e.1 == k)
  · simp only [hc, if_true, List.map_cons]
    refine List.nodup_cons.mpr ⟨?_, ?_⟩
    · intro hmem
      rcases List.mem_map.mp hmem with ⟨x, hx, hfx⟩
      have hne := (List.mem_filter.mp hx).2
      rw [hfx] at hne
      simp [bne] at hne
    · exact List.Nodup.sublist ((c.entries.filter_sublist).map Prod.fst) h
  · simp only [hc, Bool.false_eq_true, if_false]
    have hcf : c.entries.any (fun e => e.1 == k) = false := by
      rwa [Bool.not_eq_true] at hc
    have hnotin : k ∉ c.entries.map Prod.fst := by
      intro hmem
      rcases List.mem_map.mp hmem with ⟨x, hx, hfx⟩
      have := (List.any_eq_false.mp hcf) x hx
      simp [hfx] at this
    have hcons : (((k, v) :: c.entries).map Prod.fst).Nodup :=
      List.nodup_cons.mpr ⟨hnotin, h⟩
    split
    · exact List.Nodup.sublist ((List.dropLast_sublist _).map Prod.fst) hcons
    · exact hcons

theorem count_key_le_one (l : List (Nat × Nat)) (k : Nat) (h : (l.map Prod.fst).Nodup) :
    (l.filter (fun e => e.1 == k)).length ≤ 1 := by
  induction l with
  | nil => simp
  | cons a t ih =>
    rw [List.map_cons] at h
    have hnd := List.nodup_cons.mp h
    by_cases hak : (a.1 == k) = true
    · have hk : a.1 = k := by simpa using hak
      have hfil : t.filter (fun e => e.1 == k) = [] := by
        apply List.filter_eq_nil_iff.mpr
        intro x hx hxk
        have hxk' : x.1 = k := by simpa using hxk
        apply hnd.1
        rw [hk, ← hxk']
        exact List.mem_map.mpr ⟨x, hx, rfl⟩
      simp [List.filter_cons, hak, hfil]
    · simp only [List.filter_cons, hak, Bool.false_eq_true, if_false]
      exact ih hnd.2

/-! ### Claim theorems -/

/-- Claim C3 (code bug): sendMessage on a client whose bluetooth
initialization failed (nil interface) and whose key is established does
dereference the absent driver: the source spawns
`go client.bt.Write(ciphertext)` without the nil guard that
activatePairing and deactivatePairing use, so the nil bluetooth interface
is dereferenced (a process-killing panic in Go).  In the model's
linearisation the cloud-relay send still completes, but the deref is
recorded. -/
theorem sendMessage_nil_bt_is_dereferenced :
    (sendMessage collabRecvFail stNoBt w0 [3]).2.1.nilBtDeref = true ∧
    (sendMessage collabRecvFail stNoBt w0 [3]).2.1.cloudSent = [[3]] ∧
    (sendMessage collabRecvFail stNoBt w0 [3]).2.2 = none := by decide

/-- Claim C9 (code bug): handleCiphertext with no active PairingSecret
crashes instead of returning the pairing-never-initiated error: the source
invokes `pairingSecret.UnwrapKeyIfPresent(ciphertext)` on the nil secret
one line before the `pairingSecret == nil` check. -/
theorem handleCiphertext_nil_secret_crashes :
    handleCiphertext collabRecvFail stUnpaired w0 [1] = (stUnpaired, w0, HCOut.crashed) := by
  decide

/-- Claim C10 (code bug): when secret generation fails inside Pair() on a
never-paired client, Pair() crashes: the source builds its return value by
dereferencing `ec.pairingSecret`, still nil, with no check (and it also
discards generatePairing's error). -/
theorem pair_crashes_when_generate_fails :
    (Pair collabGenFail stUnpaired w0).2.2 = PairOut.crashed ∧
    (Pair collabGenFail stUnpaired w0).1.pairingSecret = none := by decide

/-- Claim C6: a sendMessage call hitting the waiting-for-key condition
returns the recoverable SendQueued indication; the message is appended to
the outgoing queue only when it holds fewer than 128 entries and is
silently dropped (the newest message first) otherwise, so a queue at or
under 128 entries never exceeds 128. -/
theorem sendMessage_waiting_queues_bounded (C : Collab) (st : ClientState) (w : World)
    (m : Msg) (ps : PairingSecret)
    (hps : st.pairingSecret = some ps)
    (henc : C.encrypt ps m = EncOut.waitingForKey) :
    (sendMessage C st w m).2.2 = some (ClientErr.sendQueued KErr.errWaitingForKey) ∧
    (sendMessage C st w m).1.outgoingQueue =
      (if st.outgoingQueue.length < 128 then st.outgoingQueue ++ [m] else st.outgoingQueue) ∧
    (st.outgoingQueue.length ≤ 128 → (sendMessage C st w m).1.outgoingQueue.length ≤ 128) := by
  have hq : (sendMessage C st w m).1.outgoingQueue =
      (if st.outgoingQueue.length < 128 then st.outgoingQueue ++ [m] else st.outgoingQueue) := by
    simp only [sendMessage, hps, henc]
    by_cases hlen : st.outgoingQueue.length < 128 <;> simp [hlen]
  refine ⟨by simp [sendMessage, hps, henc], hq, ?_⟩
  intro hle
  rw [hq]
  by_cases hlen : st.outgoingQueue.length < 128 <;> simp [hlen] <;> omega

theorem sendMessage_waiting_queues_bounded_witness :
    (sendMessage collabWaiting stEst w0 [7]).2.2 =
      some (ClientErr.sendQueued KErr.errWaitingForKey) ∧
    (sendMessage collabWaiting stEst w0 [7]).1.outgoingQueue =
      (if stEst.outgoingQueue.length < 128 then stEst.outgoingQueue ++ [[7]]
        else stEst.outgoingQueue) ∧
    (stEst.outgoingQueue.length ≤ 128 →
      (sendMessage collabWaiting stEst w0 [7]).1.outgoingQueue.length ≤ 128) :=
  sendMessage_waiting_queues_bounded collabWaiting stEst w0 [7] psEst rfl rfl

/-- Claim C8: a parsed Response carrying an endpoint-identifier update has
the update applied to the active PairingSecret and the updated secret
persisted, with no hypothesis on the Correlator: the conclusion holds
whether or not an entry exists for the response's request identifier. -/
theorem handleMessage_applies_endpoint_update (C : Collab) (st : ClientState) (w : World)
    (m : Msg) (resp : Response) (arn : Nat) (ps : PairingSecret)
    (hum : C.unmarshal m = Except.ok resp)
    (harn : resp.snsEndpointARN = some arn)
    (hps : st.pairingSecret = some ps) :
    (handleMessage C st w m).1.pairingSecret = some { ps with snsEndpointARN := some arn } ∧
    (handleMessage C st w m).2.1.saved = some { ps with snsEndpointARN := some arn } := by
  simp only [handleMessage, hum, harn, hps]
  split <;> simp

theorem handleMessage_applies_endpoint_update_witness :
    (handleMessage collabArn stEst w0 [4]).1.pairingSecret =
      some { psEst with snsEndpointARN := some 9 } ∧
    (handleMessage collabArn stEst w0 [4]).2.1.saved =
      some { psEst with snsEndpointARN := some 9 } :=
  handleMessage_applies_endpoint_update collabArn stEst w0 [4]
    { requestID := 4, snsEndpointARN := some 9, meResponse := none,
      signResponse := none, listResponse := none } 9 psEst rfl rfl rfl

/-- On a successfully unmarshalled response, handleMessage's resulting
correlator is the Get-then-Remove of the incoming one, and the delivery log
grows exactly when the Get hit. -/
theorem handleMessage_components (C : Collab) (st : ClientState) (w : World) (m : Msg)
    (resp : Response) (hum : C.unmarshal m = Except.ok resp) :
    (handleMessage C st w m).1.requestCallbacksByRequestID =
      ((st.requestCallbacksByRequestID.get resp.requestID).2).remove resp.requestID ∧
    (handleMessage C st w m).2.1.delivered =
      (match (st.requestCallbacksByRequestID.get resp.requestID).1 with
       | some ch => w.delivered ++ [(ch, some resp)]
       | none => w.delivered) := by
  simp only [handleMessage, hum]
  rcases harn : resp.snsEndpointARN with _ | arn
  · simp only [harn]
    cases hgc : (st.requestCallbacksByRequestID.get resp.requestID).1 <;> simp [hgc]
  · simp only [harn]
    rcases hps : st.pairingSecret with _ | ps <;>
      simp only [hps] <;>
        (cases hgc : (st.requestCallbacksByRequestID.get resp.requestID).1 <;> simp [hgc])

/-- Claim C7: if no Correlator entry exists for a delivered Response's
request identifier, delivery is a no-op drop (no delivery recorded, the
correlator unchanged); a first delivery removes the entry, so a second
delivery for the same identifier reaches no waiter; and under the
map-backed key-uniqueness invariant — preserved by handleMessage — each
identifier has at most one live entry. -/
theorem handleMessage_delivery_idempotent (C : Collab) (st : ClientState) (w : World)
    (m m2 : Msg) (resp resp2 : Response)
    (hum : C.unmarshal m = Except.ok resp)
    (hum2 : C.unmarshal m2 = Except.ok resp2)
    (hid : resp2.requestID = resp.requestID) :
    (st.requestCallbacksByRequestID.containsKey resp.requestID = false →
      (handleMessage C st w m).2.1.delivered = w.delivered ∧
      (handleMessage C st w m).1.requestCallbacksByRequestID =
        st.requestCallbacksByRequestID) ∧
    ((handleMessage C st w m).1.requestCallbacksByRequestID.containsKey resp.requestID
      = false) ∧
    ((handleMessage C (handleMessage C st w m).1 (handleMessage C st w m).2.1 m2).2.1.delivered
      = (handleMessage C st w m).2.1.delivered) ∧
    (st.requestCallbacksByRequestID.wf →
      (handleMessage C st w m).1.requestCallbacksByRequestID.wf) ∧
    (st.requestCallbacksByRequestID.wf →
      (st.requestCallbacksByRequestID.entries.filter
        (fun e => e.1 == resp.requestID)).length ≤ 1) := by
  obtain ⟨hcache, hdel⟩ := handleMessage_components C st w m resp hum
  have hgone : (handleMessage C st w m).1.requestCallbacksByRequestID.containsKey
      resp.requestID = false := by
    rw [hcache]
    exact LRUCache.containsKey_remove _ _
  refine ⟨?_, hgone, ?_, ?_, ?_⟩
  · intro hmiss
    have hget := LRUCache.get_miss _ _ hmiss
    constructor
    · rw [hdel, hget]
    · rw [hcache, hget]
      exact LRUCache.remove_miss _ _ hmiss
  · obtain ⟨_, hdel2⟩ :=
      handleMessage_components C (handleMessage C st w m).1 (handleMessage C st w m).2.1
        m2 resp2 hum2
    have hmiss2 : (handleMessage C st w m).1.requestCallbacksByRequestID.containsKey
        resp2.requestID = false := by rwa [hid]
    rw [hdel2, LRUCache.get_miss _ _ hmiss2]
  · intro hwf
    rw [hcache]
    exact LRUCache.wf_remove _ _ (LRUCache.wf_get _ _ hwf)
  · intro hwf
    exact count_key_le_one _ _ hwf

theorem handleMessage_delivery_idempotent_witness :
    (stEst.requestCallbacksByRequestID.containsKey 4 = false →
      (handleMessage collabArn stEst w0 [4]).2.1.delivered = w0.delivered ∧
      (handleMessage collabArn stEst w0 [4]).1.requestCallbacksByRequestID =
        stEst.requestCallbacksByRequestID) ∧
    ((handleMessage collabArn stEst w0 [4]).1.requestCallbacksByRequestID.containsKey 4
      = false) ∧
    ((handleMessage collabArn (handleMessage collabArn stEst w0 [4]).1
        (handleMessage collabArn stEst w0 [4]).2.1 [4]).2.1.delivered
      = (handleMessage collabArn stEst w0 [4]).2.1.delivered) ∧
    (stEst.requestCallbacksByRequestID.wf →
      (handleMessage collabArn stEst w0 [4]).1.requestCallbacksByRequestID.wf) ∧
    (stEst.requestCallbacksByRequestID.wf →
      (stEst.requestCallbacksByRequestID.entries.filter (fun e => e.1 == 4)).length ≤ 1) :=
  handleMessage_delivery_idempotent collabArn stEst w0 [4] [4]
    { requestID := 4, snsEndpointARN := some 9, meResponse := none,
      signResponse := none, listResponse := none }
    { requestID := 4, snsEndpointARN := some 9, meResponse := none,
      signResponse := none, listResponse := none } rfl rfl rfl

/-- sendMessage off the waiting-for-key path leaves the secret, the queue
and the persisted snapshot untouched and records exactly one send attempt. -/
theorem sendMessage_frame (C : Collab) (st : ClientState) (w : World) (m : Msg)
    (ps : PairingSecret)
    (hps : st.pairingSecret = some ps)
    (henc : C.encrypt ps m ≠ EncOut.waitingForKey) :
    (sendMessage C st w m).1.pairingSecret = st.pairingSecret ∧
    (sendMessage C st w m).1.outgoingQueue = st.outgoingQueue ∧
    (sendMessage C st w m).2.1.saved = w.saved ∧
    (sendMessage C st w m).2.1.sendAttempts = w.sendAttempts ++ [m] := by
  simp only [sendMessage, hps]
  rcases he : C.encrypt ps m with ct | _ | e
  · rcases st.bt with _ | b <;> rcases C.cloudSend ps m with _ | e <;> simp [hps]
  · exact absurd he henc
  · simp [hps]

/-- The queue-drain fold of handleCiphertext: when the established key never
reports waiting-for-key, the fold preserves the secret, keeps the queue
empty, does not touch the persisted snapshot, and submits every queued
message through the send path in order. -/
theorem drainFold_frame (C : Collab) (ps : PairingSecret) (queue : List Msg) :
    ∀ (st : ClientState) (w : World) (e0 : Option ClientErr),
      st.pairingSecret = some ps →
      st.outgoingQueue = [] →
      (∀ m ∈ queue, C.encrypt ps m ≠ EncOut.waitingForKey) →
      ((queue.foldl (fun acc m =>
          let r := sendMessage C acc.1 acc.2.1 m
          (r.1, r.2.1, r.2.2)) (st, w, e0)).1.pairingSecret = some ps ∧
       (queue.foldl (fun acc m =>
          let r := sendMessage C acc.1 acc.2.1 m
          (r.1, r.2.1, r.2.2)) (st, w, e0)).1.outgoingQueue = [] ∧
       (queue.foldl (fun acc m =>
          let r := sendMessage C acc.1 acc.2.1 m
          (r.1, r.2.1, r.2.2)) (st, w, e0)).2.1.saved = w.saved ∧
       (queue.foldl (fun acc m =>
          let r := sendMessage C acc.1 acc.2.1 m
          (r.1, r.2.1, r.2.2)) (st, w, e0)).2.1.sendAttempts = w.sendAttempts ++ queue) := by
  induction queue with
  | nil =>
    intro st w e0 hps hq _
    simp [hps, hq]
  | cons m rest ih =>
    intro st w e0 hps hq henc
    simp only [List.foldl_cons]
    have hf := sendMessage_frame C st w m ps hps (henc m (List.mem_cons_self m rest))
    have hrest := ih (sendMessage C st w m).1 (sendMessage C st w m).2.1
      (sendMessage C st w m).2.2 (hf.1.trans hps) (hf.2.1.trans hq)
      (fun x hx => henc x (List.mem_cons_of_mem m hx))
    refine ⟨hrest.1, hrest.2.1, ?_, ?_⟩
    · rw [hrest.2.2.1, hf.2.2.1]
    · rw [hrest.2.2.2, hf.2.2.2, List.append_assoc]
      simp

/-- Claim C5: a ciphertext that unwraps key material makes handleCiphertext
persist the updated PairingSecret, swap the Outgoing Queue for an empty
one, and re-submit every buffered message through the normal send path in
original enqueue order (the send-attempt log extends by exactly the old
queue, so a failure on one queued message never prevents the attempts on
the remaining ones). -/
theorem key_unwrap_drains_queue (C : Collab) (st : ClientState) (w : World)
    (ctxt : Ctxt) (ps ps' : PairingSecret)
    (hps : st.pairingSecret = some ps)
    (hun : C.unwrap ps ctxt =
      { remainder := none, didUnwrapKey := true, err := none, updatedSecret := ps' })
    (henc : ∀ m ∈ st.outgoingQueue, C.encrypt ps' m ≠ EncOut.waitingForKey) :
    (handleCiphertext C st w ctxt).1.pairingSecret = some ps' ∧
    (handleCiphertext C st w ctxt).2.1.saved = some ps' ∧
    (handleCiphertext C st w ctxt).1.outgoingQueue = [] ∧
    (handleCiphertext C st w ctxt).2.1.sendAttempts = w.sendAttempts ++ st.outgoingQueue := by
  have hfold := drainFold_frame C ps' st.outgoingQueue
    { st with pairingSecret := some ps', outgoingQueue := [] }
    { w with saved := some ps' } none rfl rfl henc
  simp only [handleCiphertext, hps, hun, if_true]
  exact ⟨hfold.1, hfold.2.2.1, hfold.2.1, hfold.2.2.2⟩

/-- Oracle whose unwrap establishes the key. -/
def collabUnwrap : Collab :=
  { collabRecvFail with
    unwrap := fun _ _ =>
      { remainder := none, didUnwrapKey := true, err := none, updatedSecret := psEst }
    readQueue := fun _ => Except.ok [] }

/-- A key-pending client with three buffered messages. -/
def stQueued : ClientState :=
  { stUnpaired with pairingSecret := some psPending, outgoingQueue := [[1], [2], [3]] }

theorem key_unwrap_drains_queue_witness :
    (handleCiphertext collabUnwrap stQueued w0 [0]).1.pairingSecret = some psEst ∧
    (handleCiphertext collabUnwrap stQueued w0 [0]).2.1.saved = some psEst ∧
    (handleCiphertext collabUnwrap stQueued w0 [0]).1.outgoingQueue = [] ∧
    (handleCiphertext collabUnwrap stQueued w0 [0]).2.1.sendAttempts =
      w0.sendAttempts ++ stQueued.outgoingQueue :=
  key_unwrap_drains_queue collabUnwrap stQueued w0 [0] psPending psEst rfl rfl (by decide)

/-- Get on a cache whose most-recent entry has the looked-up key. -/
theorem LRUCache.get_entries_front (c : LRUCache) (k v : Nat) (es : List (Nat × Nat))
    (h : c.entries = (k, v) :: es) :
    c.get k = (some v, { c with entries := (k, v) :: es.filter (fun x => x.1 != k) }) := by
  have h1 : c.entries.find? (fun e => e.1 == k) = some (k, v) := by
    rw [h]
    exact List.find?_cons_of_pos _ (by simp)
  simp only [LRUCache.get, h1, h]
  simp [List.filter_cons]

/-- sendMessage on the fully successful path (encryption succeeds, the
cloud-relay send succeeds) leaves the client state untouched, returns no
error, and does not touch the delivery log or the drain counter. -/
theorem sendMessage_ok (C : Collab) (st : ClientState) (w : World) (m : Msg)
    (ps : PairingSecret) (ct : Ctxt)
    (hps : st.pairingSecret = some ps)
    (henc : C.encrypt ps m = EncOut.ok ct)
    (hsend : C.cloudSend ps m = none) :
    (sendMessage C st w m).1 = st ∧
    (sendMessage C st w m).2.2 = none ∧
    (sendMessage C st w m).2.1.delivered = w.delivered ∧
    (sendMessage C st w m).2.1.readQueueCalls = w.readQueueCalls := by
  simp only [sendMessage, hps, henc, hsend]
  rcases st.bt with _ | b <;> simp

/-- Claim C1 (amended): with no active PairingSecret, the internal worker
does fail immediately with the distinct unpaired error and makes no
network attempt (client state and world are returned untouched), but the
error is only logged in the worker goroutine and nothing is delivered on
the response channel, so every typed public operation blocks until its
configured timeout elapses and returns ErrTimeout instead of the unpaired
error. -/
theorem unpaired_operations_return_timeout (C : Collab) (st : ClientState) (w : World)
    (request : Request) (signRequest : SignRequest) (listRequest : ListRequest)
    (requestId cb fuel : Nat)
    (hps : st.pairingSecret = none) :
    sendRequestAndReceiveResponses C st w request cb fuel =
      (st, w, WOut.done (some ClientErr.pairingNeverInitiated)) ∧
    tryRequest C st w request cb fuel = (st, w, TOut.done none (some ClientErr.timeout)) ∧
    RequestMe C st w requestId cb fuel = (st, w, ROut.done none (some ClientErr.timeout)) ∧
    RequestSignature C st w signRequest requestId cb fuel =
      (st, w, ROut.done none (some ClientErr.timeout)) ∧
    RequestList C st w listRequest requestId cb fuel =
      (st, w, ROut.done none (some ClientErr.timeout)) := by
  have hw : ∀ r : Request, sendRequestAndReceiveResponses C st w r cb fuel =
      (st, w, WOut.done (some ClientErr.pairingNeverInitiated)) := by
    intro r
    simp [sendRequestAndReceiveResponses, hps]
  have ht : ∀ r : Request, tryRequest C st w r cb fuel =
      (st, w, TOut.done none (some ClientErr.timeout)) := by
    intro r
    simp only [tryRequest, hw r]
    simp [List.drop_length]
  refine ⟨hw request, ht request, ?_, ?_, ?_⟩ <;>
    simp [RequestMe, RequestSignature, RequestList, ht]

/-- A concrete profile-fetch request envelope. -/
def reqMe2 : Request :=
  { requestID := 2, meRequest := some (), signRequest := none, listRequest := none }

def signReq1 : SignRequest := { data := [1] }

def listReq1 : ListRequest := { emailFilter := 0 }

theorem unpaired_operations_return_timeout_witness :
    sendRequestAndReceiveResponses collabRecvFail stUnpaired w0 reqMe2 6 4 =
      (stUnpaired, w0, WOut.done (some ClientErr.pairingNeverInitiated)) ∧
    tryRequest collabRecvFail stUnpaired w0 reqMe2 6 4 =
      (stUnpaired, w0, TOut.done none (some ClientErr.timeout)) ∧
    RequestMe collabRecvFail stUnpaired w0 2 6 4 =
      (stUnpaired, w0, ROut.done none (some ClientErr.timeout)) ∧
    RequestSignature collabRecvFail stUnpaired w0 signReq1 2 6 4 =
      (stUnpaired, w0, ROut.done none (some ClientErr.timeout)) ∧
    RequestList collabRecvFail stUnpaired w0 listReq1 2 6 4 =
      (stUnpaired, w0, ROut.done none (some ClientErr.timeout)) :=
  unpaired_operations_return_timeout collabRecvFail stUnpaired w0 reqMe2 signReq1 listReq1
    2 6 4 rfl

/-- Claim C1 counterexample: on a concrete never-paired client, the
profile-fetch operation does not fail with the distinct unpaired error —
its select blocks until the timer fires and it returns ErrTimeout, because
the worker's unpaired error is only logged, never delivered on the
response channel. -/
theorem requestMe_unpaired_times_out_cex :
    RequestMe collabRecvFail stUnpaired w0 1 0 3 =
      (stUnpaired, w0, ROut.done none (some ClientErr.timeout)) ∧
    ClientErr.timeout ≠ ClientErr.pairingNeverInitiated := by decide

theorem triple_eta {α β γ : Type} (x : α × β × γ) : x = (x.1, x.2.1, x.2.2) := rfl

/-- When the first relay drain fails and this request's entry sits at the
front of the correlator, the drain-and-evict tail exits on the receive
error, gives up on the request, and delivers the sentinel on its channel. -/
theorem drainAndEvict_recv_error (C : Collab) (st : ClientState) (w : World)
    (request : Request) (cb : Nat) (es : List (Nat × Nat)) (f : Nat) (e : KErr)
    (hrq : C.readQueue 0 = Except.error e)
    (hfr : st.requestCallbacksByRequestID.entries = (request.requestID, cb) :: es) :
    (drainAndEvict C st w request (f + 1)).2.2 = WOut.done none ∧
    (drainAndEvict C st w request (f + 1)).2.1.delivered = w.delivered ++ [(cb, none)] ∧
    (drainAndEvict C st w request (f + 1)).1.cachedMe = st.cachedMe := by
  have hget1 := LRUCache.get_entries_front st.requestCallbacksByRequestID
    request.requestID cb es hfr
  have hget2 := LRUCache.get_entries_front
    { st.requestCallbacksByRequestID with
        entries := (request.requestID, cb) ::
          es.filter (fun x => x.1 != request.requestID) }
    request.requestID cb (es.filter (fun x => x.1 != request.requestID)) rfl
  simp only [drainAndEvict, drainLoop, receivePass, hrq, hget1]
  simp [hget2]

/-- The send-and-drain worker when the request marshals, encrypts and
relays fine but the very first relay read fails: nothing useful is
delivered; the worker exits its loop on the receive error, evicts its own
entry and delivers the sentinel on its channel, returning a nil error. -/
theorem worker_recv_error_evicts (C : Collab) (st : ClientState) (w : World)
    (request : Request) (cb f : Nat) (ps : PairingSecret) (reqJson : Msg) (ct : Ctxt)
    (e : KErr)
    (hps : st.pairingSecret = some ps)
    (hm : C.marshal request = Except.ok reqJson)
    (henc : C.encrypt ps reqJson = EncOut.ok ct)
    (hsend : C.cloudSend ps reqJson = none)
    (hrq : C.readQueue 0 = Except.error e) :
    (sendRequestAndReceiveResponses C st w request cb (f + 1)).2.2 = WOut.done none ∧
    (sendRequestAndReceiveResponses C st w request cb (f + 1)).2.1.delivered =
      w.delivered ++ [(cb, none)] ∧
    (sendRequestAndReceiveResponses C st w request cb (f + 1)).1.cachedMe = st.cachedMe := by
  obtain ⟨ps0, cache0, q0, arn0, me0, bt0⟩ := st
  change ps0 = some ps at hps
  subst hps
  obtain ⟨es, hes⟩ := LRUCache.add_front cache0 request.requestID cb
  have hsm := sendMessage_ok C
    { pairingSecret := some ps, requestCallbacksByRequestID := cache0.add request.requestID cb,
      outgoingQueue := q0, snsEndpointARN := arn0, cachedMe := me0, bt := bt0 }
    w reqJson ps ct rfl henc hsend
  have hstep : sendRequestAndReceiveResponses C
      { pairingSecret := some ps, requestCallbacksByRequestID := cache0, outgoingQueue := q0,
        snsEndpointARN := arn0, cachedMe := me0, bt := bt0 } w request cb (f + 1) =
      drainAndEvict C
        { pairingSecret := some ps,
          requestCallbacksByRequestID := cache0.add request.requestID cb,
          outgoingQueue := q0, snsEndpointARN := arn0, cachedMe := me0, bt := bt0 }
        (sendMessage C
          { pairingSecret := some ps,
            requestCallbacksByRequestID := cache0.add request.requestID cb,
            outgoingQueue := q0, snsEndpointARN := arn0, cachedMe := me0, bt := bt0 }
          w reqJson).2.1
        request (f + 1) := by
    simp only [sendRequestAndReceiveResponses, hm]
    rw [hsm.2.1]
    simp only [hsm.1]
  rw [hstep]
  have hde := drainAndEvict_recv_error C
    { pairingSecret := some ps, requestCallbacksByRequestID := cache0.add request.requestID cb,
      outgoingQueue := q0, snsEndpointARN := arn0, cachedMe := me0, bt := bt0 }
    (sendMessage C
      { pairingSecret := some ps, requestCallbacksByRequestID := cache0.add request.requestID cb,
        outgoingQueue := q0, snsEndpointARN := arn0, cachedMe := me0, bt := bt0 }
      w reqJson).2.1
    request cb es f e hrq hes
  refine ⟨hde.1, ?_, hde.2.2⟩
  rw [hde.2.1, hsm.2.2.1]

/-- Claim C2 (amended): when the worker delivers the sentinel "no answer"
on the registered response channel before the caller's deadline (here: the
first relay drain fails, the loop exits, and the worker gives up on the
request), the calling operation does not surface a failure: tryRequest
hands the nil response back with a nil error and RequestMe returns a nil
payload with a nil error, leaving the cached profile unchanged. -/
theorem sentinel_delivery_yields_nil_without_error (C : Collab) (st : ClientState)
    (w : World) (ps : PairingSecret) (requestId cb fuel : Nat) (reqJson : Msg) (ct : Ctxt)
    (e : KErr)
    (hps : st.pairingSecret = some ps)
    (hm : C.marshal { requestID := requestId, meRequest := some (), signRequest := none,
                      listRequest := none } = Except.ok reqJson)
    (henc : C.encrypt ps reqJson = EncOut.ok ct)
    (hsend : C.cloudSend ps reqJson = none)
    (hrq : C.readQueue 0 = Except.error e)
    (hfuel : 0 < fuel) :
    (RequestMe C st w requestId cb fuel).2.2 = ROut.done none none ∧
    (RequestMe C st w requestId cb fuel).2.1.delivered = w.delivered ++ [(cb, none)] ∧
    (RequestMe C st w requestId cb fuel).1.cachedMe = st.cachedMe := by
  obtain ⟨f, rfl⟩ : ∃ f, fuel = f + 1 := ⟨fuel - 1, by omega⟩
  have hworker := worker_recv_error_evicts C st w
    { requestID := requestId, meRequest := some (), signRequest := none, listRequest := none }
    cb f ps reqJson ct e hps hm henc hsend hrq
  have hwval := (triple_eta (sendRequestAndReceiveResponses C st w
    { requestID := requestId, meRequest := some (), signRequest := none, listRequest := none }
    cb (f + 1))).trans (by rw [hworker.1])
  have htr : tryRequest C st w
      { requestID := requestId, meRequest := some (), signRequest := none,
                    listRequest := none } cb (f + 1) =
      ((sendRequestAndReceiveResponses C st w
          { requestID := requestId, meRequest := some (), signRequest := none,
                        listRequest := none } cb (f + 1)).1,
        (sendRequestAndReceiveResponses C st w
          { requestID := requestId, meRequest := some (), signRequest := none,
                        listRequest := none } cb (f + 1)).2.1,
        TOut.done none none) := by
    simp only [tryRequest]
    rw [hwval]
    simp only [hworker.2.1, List.drop_left]
    simp [List.filter_cons]
  simp only [RequestMe, htr]
  exact ⟨trivial, hworker.2.1, hworker.2.2⟩

theorem sentinel_delivery_yields_nil_without_error_witness :
    (RequestMe collabRecvFail stEst w0 2 6 1).2.2 = ROut.done none none ∧
    (RequestMe collabRecvFail stEst w0 2 6 1).2.1.delivered = w0.delivered ++ [(6, none)] ∧
    (RequestMe collabRecvFail stEst w0 2 6 1).1.cachedMe = stEst.cachedMe :=
  sentinel_delivery_yields_nil_without_error collabRecvFail stEst w0 psEst 2 6 1 [2] [2]
    (KErr.generic 3) rfl rfl rfl rfl rfl (by decide)

/-- Claim C2 counterexample: on a concrete paired client whose worker
delivers the sentinel before the deadline (the relay read fails at once),
the profile fetch returns a nil payload with a nil error: success with an
absent payload, not a surfaced failure. -/
theorem sentinel_returns_nil_success_cex :
    (RequestMe collabRecvFail stEst w0 3 7 2).2.2 = ROut.done none none := by decide

theorem ClientState.update_secret_self (st : ClientState) (ps : PairingSecret)
    (h : st.pairingSecret = some ps) : { st with pairingSecret := some ps } = st := by
  obtain ⟨ps0, c0, q0, a0, m0, b0⟩ := st
  change ps0 = some ps at h
  subst h
  rfl

/-- Claim C4 (amended): within one drained batch, a decrypt failure on one
ciphertext is logged and that ciphertext dropped while subsequent
ciphertexts of the same batch are still processed (their responses still
delivered) — but the drain pass reports the last ciphertext's non-waiting
result, so a batch whose last ciphertext fails decrypt makes the pass
return a hard error and that error terminates the drain loop at once. -/
theorem decrypt_failure_batch_behavior (C : Collab) (st : ClientState) (w : World)
    (ps : PairingSecret) (b g m : Ctxt) (code : Nat) (resp : Response) (ch rid : Nat)
    (es : List (Nat × Nat)) (i j fuel : Nat)
    (hps : st.pairingSecret = some ps)
    (hub : C.unwrap ps b =
      { remainder := some b, didUnwrapKey := false, err := none, updatedSecret := ps })
    (hug : C.unwrap ps g =
      { remainder := some g, didUnwrapKey := false, err := none, updatedSecret := ps })
    (hdb : C.decrypt ps b = Except.error (KErr.generic code))
    (hdg : C.decrypt ps g = Except.ok (some m))
    (hum : C.unmarshal m = Except.ok resp)
    (harn : resp.snsEndpointARN = none)
    (hfr : st.requestCallbacksByRequestID.entries = (resp.requestID, ch) :: es)
    (hrq : C.readQueue i = Except.ok [b, g])
    (hrq2 : C.readQueue j = Except.ok [b]) :
    (receivePass C st w i).2.1.delivered = w.delivered ++ [(ch, some resp)] ∧
    (receivePass C st w i).2.2 = HCOut.ok none ∧
    (receivePass C st w j).2.2 = HCOut.ok (some (ClientErr.plain (KErr.generic code))) ∧
    (drainLoop C rid st w j (fuel + 1)).2.2 = LoopOut.exited ∧
    (drainLoop C rid st w j (fuel + 1)).2.1.readQueueCalls = w.readQueueCalls + 1 := by
  have heta : ({ st with pairingSecret := some ps } : ClientState) = st :=
    ClientState.update_secret_self st ps hps
  have hb : ∀ w' : World, handleCiphertext C st w' b =
      (st, w', HCOut.ok (some (ClientErr.plain (KErr.generic code)))) := by
    intro w'
    simp [handleCiphertext, hps, hub, hdb, heta]
  have hget := LRUCache.get_entries_front st.requestCallbacksByRequestID resp.requestID ch
    es hfr
  have hgm : ∀ w' : World, handleMessage C st w' m =
      ({ st with requestCallbacksByRequestID :=
          ({ st.requestCallbacksByRequestID with
              entries := (resp.requestID, ch) ::
                es.filter (fun x => x.1 != resp.requestID) }).remove resp.requestID },
        { w' with delivered := w'.delivered ++ [(ch, some resp)] }, none) := by
    intro w'
    simp [handleMessage, hum, harn, hget, hps]
  have hg : ∀ w' : World, handleCiphertext C st w' g =
      ({ st with requestCallbacksByRequestID :=
          ({ st.requestCallbacksByRequestID with
              entries := (resp.requestID, ch) ::
                es.filter (fun x => x.1 != resp.requestID) }).remove resp.requestID },
        { w' with delivered := w'.delivered ++ [(ch, some resp)] }, HCOut.ok none) := by
    intro w'
    simp [handleCiphertext, hps, hug, hdg, heta, hgm w']
  have hpass1 : receivePass C st w i =
      ({ st with requestCallbacksByRequestID :=
          ({ st.requestCallbacksByRequestID with
              entries := (resp.requestID, ch) ::
                es.filter (fun x => x.1 != resp.requestID) }).remove resp.requestID },
        { w with delivered := w.delivered ++ [(ch, some resp)],
                 readQueueCalls := w.readQueueCalls + 1 },
        HCOut.ok none) := by
    simp [receivePass, hrq, hb, hg]
  have hpass2 : receivePass C st w j =
      (st, { w with readQueueCalls := w.readQueueCalls + 1 },
        HCOut.ok (some (ClientErr.plain (KErr.generic code)))) := by
    simp [receivePass, hrq2, hb]
  refine ⟨by rw [hpass1], by rw [hpass1], by rw [hpass2], ?_, ?_⟩ <;>
    simp only [drainLoop, hpass2] <;> simp

/-- The response carried by the good ciphertext of the C4 fixtures. -/
def respW : Response :=
  { requestID := 4, snsEndpointARN := none, meResponse := none, signResponse := none,
    listResponse := none }

/-- Oracle for the C4 runs: ciphertext [9] fails decryption, others pass
through; message [8] parses to `respW`; the first relay batch is
[[9], [8]], the second [[9]], later ones empty. -/
def collabBatch : Collab :=
  { collabRecvFail with
    decrypt := fun _ c => if c = [9] then Except.error (KErr.generic 7) else Except.ok (some c)
    unmarshal := fun m => if m = [8] then Except.ok respW else Except.error (KErr.generic 1)
    readQueue := fun i =>
      if i = 0 then Except.ok [[9], [8]]
      else if i = 1 then Except.ok [[9]]
      else Except.ok [] }

/-- A paired client with one registered correlator entry (request 4,
channel 55). -/
def stCorr : ClientState :=
  { stEst with requestCallbacksByRequestID := { maxEntries := 128, entries := [(4, 55)] } }

theorem decrypt_failure_batch_behavior_witness :
    (receivePass collabBatch stCorr w0 0).2.1.delivered =
      w0.delivered ++ [(55, some respW)] ∧
    (receivePass collabBatch stCorr w0 0).2.2 = HCOut.ok none ∧
    (receivePass collabBatch stCorr w0 1).2.2 =
      HCOut.ok (some (ClientErr.plain (KErr.generic 7))) ∧
    (drainLoop collabBatch 4 stCorr w0 1 (2 + 1)).2.2 = LoopOut.exited ∧
    (drainLoop collabBatch 4 stCorr w0 1 (2 + 1)).2.1.readQueueCalls =
      w0.readQueueCalls + 1 :=
  decrypt_failure_batch_behavior collabBatch stCorr w0 psEst [9] [8] [8] 7 respW 55 4 [] 0 1 2
    rfl rfl rfl rfl rfl rfl rfl rfl rfl rfl

/-- Oracle for the C4 counterexample: the only ciphertext of the first
relay batch fails decryption; later batches are empty and the deadline
never passes. -/
def collabDecryptFail : Collab :=
  { collabRecvFail with
    decrypt := fun _ c => if c = [9] then Except.error (KErr.generic 7) else Except.ok (some c)
    readQueue := fun i => if i = 0 then Except.ok [[9]] else Except.ok [] }

def reqMe5 : Request :=
  { requestID := 5, meRequest := some (), signRequest := none, listRequest := none }

/-- Claim C4 counterexample: with fuel for four drain iterations and a
deadline that never passes, a decrypt failure on the only ciphertext of
the first batch terminates the drain loop after a single pass (exactly one
relay read) and the worker gives up on the request, delivering the
sentinel — the failure does terminate the drain loop as a hard error. -/
theorem decrypt_failure_terminates_drain_cex :
    (sendRequestAndReceiveResponses collabDecryptFail stEst w0 reqMe5 77 4).2.1.readQueueCalls
      = 1 ∧
    (sendRequestAndReceiveResponses collabDecryptFail stEst w0 reqMe5 77 4).2.1.delivered =
      [(77, none)] ∧
    (sendRequestAndReceiveResponses collabDecryptFail stEst w0 reqMe5 77 4).2.2 =
      WOut.done none ∧
    collabDecryptFail.deadlinePassed 0 = false ∧
    collabDecryptFail.deadlinePassed 1 = false := by decide

end Krd
